import Mathlib

/-
Shallow embedding of the traffic-generation and latency-instrumentation engine
of the vLLM workload load-test repository.

Embedded sources:
- `request_version/multi_model/benchmark.py`: `send_request`,
  `run_scenario_round_robin`, `run_scenario_zipfian`, `run_scenario_bursty`,
  and the quick summary of `run_single_test`.
- `request_version/single_model/vllm_benchmark_request.py`: `send_request` and
  the `if res: results.append(res)` collection of the phase runners.

Modelling conventions:
- Wall-clock time is exact rational seconds.  The event loop is idealized:
  `asyncio.sleep(d)` advances the scheduling loop's clock by exactly `d`, and
  loop-body execution takes zero time.
- `while` loops are embedded with an explicit fuel argument; every theorem is
  stated for arbitrary fuel, and concrete instances use fuel large enough to
  let the wall-clock stop condition fire.
- An HTTP exchange is a value of type `Exchange`: either the `session.post`
  call itself raises (`connectError`), or a response with an HTTP status code
  arrives, followed by a list of body frames (the lines produced by
  `async for line in response.content`), optionally cut short by a
  transport-level exception raised during the iteration (`midStreamError`);
  the listed frames are exactly the ones fully processed before that
  exception.
- Python's format strings `f"RR-{req_id}"`, `f"BURST-{req_id}"`,
  `f"BG-{req_id}"` are embedded as the pair (tag, counter); the mapping from
  the pair to the formatted string is injective because no tag contains a
  digit or a dash.
-/

namespace VllmLoadTest

/-- The constant `MODELS` of `multi_model/benchmark.py`. -/
def MODELS : List String := ["Chatbot-A-large", "Chatbot-B", "Chatbot-C"]

/-- The constant `TARGET_RPS` of `multi_model/benchmark.py` (base requests per second). -/
def TARGET_RPS : ℚ := 1

/-- The constant `TEST_DURATION` of `multi_model/benchmark.py` (seconds). -/
def TEST_DURATION : ℚ := 60

/-- The three status strings a `MeasurementRecord` can carry. -/
inductive Status where
  | SUCCESS
  | EMPTY_RESPONSE
  | FAIL
deriving DecidableEq, Repr

/-- One line yielded by `async for line in response.content`: whether the line
is non-empty (the `if line:` test) and the wall-clock time at which it is
processed (`current_time = time.time()`). -/
structure Frame where
  nonEmpty : Bool
  time : ℚ
deriving DecidableEq, Repr

/-- Outcome of one `session.post(url, json=payload)` exchange, as observed by
`send_request`.  `midStreamError` marks a transport-level exception raised
while iterating the body after the listed frames were processed. -/
inductive Exchange where
  | connectError
  | response (status : Nat) (frames : List Frame) (midStreamError : Bool)
deriving DecidableEq, Repr

/-- The timestamps of the non-empty frames of a body, in arrival order: these
are the frames that pass the `if line:` test inside the streaming loop. -/
def tokenTimes (frames : List Frame) : List ℚ :=
  (frames.filter (·.nonEmpty)).map (·.time)

/-- The result dictionary built at the end of `send_request` in
`multi_model/benchmark.py`.  `request_id` is the (tag, counter) rendering of
the Python format string. -/
structure MeasurementRecord where
  request_id : String × Nat
  scenario : String
  model : String
  start_time : ℚ
  ttft_ms : ℚ
  total_latency_ms : ℚ
  avg_itl_ms : ℚ
  token_count : Nat
  status : Status
deriving DecidableEq, Repr

/-- The mutable loop variables of the streaming loop of
`multi_model/benchmark.py` `send_request`: `first_token_time`,
`last_token_time`, `token_count` and `ttft`. -/
structure LoopState where
  first_token_time : Option ℚ
  last_token_time : Option ℚ
  token_count : Nat
  ttft : ℚ
deriving DecidableEq, Repr

/-- The body-streaming loop of `multi_model/benchmark.py` `send_request`
(lines 49-59): for every non-empty line, record the first arrival time and
`ttft`, update the last arrival time, and count the token. -/
def streamLoop (start_time : ℚ) : List Frame → LoopState → LoopState
  | [], s => s
  | f :: rest, s =>
    if f.nonEmpty then
      match s.first_token_time with
      | none =>
          streamLoop start_time rest
            { first_token_time := some f.time, last_token_time := some f.time,
              token_count := s.token_count + 1,
              ttft := (f.time - start_time) * 1000 }
      | some _ =>
          streamLoop start_time rest
            { s with last_token_time := some f.time,
                     token_count := s.token_count + 1 }
    else
      streamLoop start_time rest s

/-- The `ttft` value left in place by the streaming loop, as a function of the
non-empty frame times: `0` (the initialization) if no token arrived, else the
first arrival converted to milliseconds. -/
def ttftOf (start_time : ℚ) : List ℚ → ℚ
  | [] => 0
  | t :: _ => (t - start_time) * 1000

namespace MultiModel

/-- `send_request` of `multi_model/benchmark.py` (lines 24-92).  Totality of
this function is the embedding of the fact that the `try/except` recovers
every exception locally: every exchange, including `connectError` and
`midStreamError`, still returns a record. -/
def send_request (request_id : String × Nat) (model_name scenario_name : String)
    (start_time : ℚ) (ex : Exchange) : MeasurementRecord :=
  let init : LoopState :=
    { first_token_time := none, last_token_time := none, token_count := 0, ttft := 0 }
  let res : ℚ × ℚ × Nat × Status :=
    match ex with
    | .connectError => (0, 0, 0, .FAIL)
    | .response code frames midStreamError =>
      if code = 200 then
        let s := streamLoop start_time frames init
        if midStreamError then
          (s.ttft, 0, s.token_count, .FAIL)
        else
          match s.last_token_time with
          | some last_token_time =>
              (s.ttft, (last_token_time - start_time) * 1000, s.token_count, .SUCCESS)
          | none => (s.ttft, 0, s.token_count, .EMPTY_RESPONSE)
      else
        (0, 0, 0, .FAIL)
  let avg_itl : ℚ :=
    if 1 < res.2.2.1 ∧ res.2.2.2 = .SUCCESS then
      (res.2.1 - res.1) / ((res.2.2.1 : ℚ) - 1)
    else 0
  { request_id := request_id, scenario := scenario_name, model := model_name,
    start_time := start_time, ttft_ms := res.1, total_latency_ms := res.2.1,
    avg_itl_ms := avg_itl, token_count := res.2.2.1, status := res.2.2.2 }

end MultiModel

/-- One launch performed by `run_scenario_round_robin`: the request counter
`req_id` at launch time (the request id rendered by the code is the string
`"RR-" ++ toString num`), the model passed to `send_request`, and the elapsed
time of the launch under the idealized clock. -/
structure RRLaunch where
  num : Nat
  model : String
  time : ℚ
deriving DecidableEq, Repr

/-- One launch performed by `run_scenario_bursty`: the tag of the format
string (`"BURST"` or `"BG"`), the shared request counter `req_id`, the model,
and the elapsed time of the launch. -/
structure BLaunch where
  tag : String
  num : Nat
  model : String
  time : ℚ
deriving DecidableEq, Repr

/-- One iteration of the `run_scenario_bursty` loop: either the burst branch
(which launches a list of requests back to back) or the background branch
(which launches a single request). -/
inductive BurstyIter where
  | burst (time : ℚ) (launches : List BLaunch)
  | background (launch : BLaunch)
deriving DecidableEq, Repr

namespace MultiModel

/-- `run_scenario_round_robin` of `multi_model/benchmark.py` (lines 94-114)
under the idealized clock: while `elapsed < duration`, launch one request for
`MODELS[req_id % len(MODELS)]`, increment the counter, and sleep
`1.0 / TARGET_RPS`.  The source reads the module constants `MODELS`,
`TEST_DURATION` and `TARGET_RPS`; they are parameters here, instantiated with
the source's values in concrete statements. -/
def run_scenario_round_robin (models : List String) (rate duration : ℚ) :
    Nat → ℚ → Nat → List RRLaunch
  | 0, _, _ => []
  | fuel + 1, elapsed, req_id =>
    if elapsed < duration then
      ⟨req_id, models.getD (req_id % models.length) "", elapsed⟩ ::
        run_scenario_round_robin models rate duration fuel (elapsed + 1 / rate) (req_id + 1)
    else []

/-- `run_scenario_zipfian` of `multi_model/benchmark.py` (lines 116-144),
abstracted over the two pseudo-random generators the code creates:
`random_gen = random.Random(seed)`, which supplies the weighted model choice
`random_gen.choices(MODELS, weights=weights, k=1)[0]`, and
`np_gen = np.random.default_rng(seed)`, which supplies the exponential delay
`np_gen.exponential(1.0 / TARGET_RPS)`.  The generators' internals are
library code absent from the repository, so each generator is modelled as the
stream of primitive draws it produces (`randStream`, `npStream`), and the two
decodings (weighted choice, exponential transform) are the abstract functions
`modelOfDraw` and `delayOfDraw`.  Iteration `k` of the loop consumes draw `k`
of `randStream` for the model and draw `k` of `npStream` for the delay: the
two streams advance independently, each only on its own kind of draw.  Fuel
counts loop iterations; the wall-clock stop condition only decides how many
iterations run and is immaterial to the emitted (model, delay) sequence. -/
def run_scenario_zipfian (modelOfDraw : Nat → String) (delayOfDraw : Nat → ℚ)
    (randStream npStream : Nat → Nat) : Nat → Nat → List (String × ℚ)
  | 0, _ => []
  | fuel + 1, k =>
      (modelOfDraw (randStream k), delayOfDraw (npStream k)) ::
        run_scenario_zipfian modelOfDraw delayOfDraw randStream npStream fuel (k + 1)

/-- Modelled from the spec: §4.1 requires of the Weighted/Zipfian scheduler
that "both the model choice and the delay draw must come from the same seeded
generator" — a single generator, i.e. one stream of primitive draws advanced
by every draw in program order.  Each loop iteration therefore consumes two
consecutive draws of the one stream: the first for the model choice, the
second for the delay.  This definition follows the spec's words and is
compared against `run_scenario_zipfian`, which embeds the code. -/
def zipfianSingleGen (modelOfDraw : Nat → String) (delayOfDraw : Nat → ℚ)
    (stream : Nat → Nat) : Nat → Nat → List (String × ℚ)
  | 0, _ => []
  | fuel + 1, k =>
      (modelOfDraw (stream (2 * k)), delayOfDraw (stream (2 * k + 1))) ::
        zipfianSingleGen modelOfDraw delayOfDraw stream fuel (k + 1)

/-- `run_scenario_bursty` of `multi_model/benchmark.py` (lines 146-188) under
the idealized clock.  While `elapsed < duration`: if
`int(current_elapsed) % 10 == 0 and int(current_elapsed) > 0` (Python `int()`
truncates toward zero, which on the nonnegative elapsed values of a run
equals the floor), emit a burst of `burst_size = 10` requests back to back
with models drawn from `random_gen.choices(MODELS, k=10)`, advance the shared
counter by 10, and sleep 1 second; otherwise emit one background request with
model `random_gen.choice(MODELS)`, advance the counter by 1, and sleep
`1.0 / (TARGET_RPS / 2)` = `2 / rate` seconds.  `rs` is the draw stream of
`random_gen = random.Random(seed)` (library internals absent from the
repository); a burst consumes 10 draws, a background launch consumes 1. -/
def run_scenario_bursty (rate duration : ℚ) (rs : Nat → Nat) :
    Nat → ℚ → Nat → Nat → List BurstyIter
  | 0, _, _, _ => []
  | fuel + 1, elapsed, req_id, draw =>
    if elapsed < duration then
      if ⌊elapsed⌋ % 10 = 0 ∧ 0 < ⌊elapsed⌋ then
        .burst elapsed
            ((List.range 10).map fun j =>
              ⟨"BURST", req_id + j, MODELS.getD (rs (draw + j) % MODELS.length) "", elapsed⟩) ::
          run_scenario_bursty rate duration rs fuel (elapsed + 1) (req_id + 10) (draw + 10)
      else
        .background ⟨"BG", req_id, MODELS.getD (rs draw % MODELS.length) "", elapsed⟩ ::
          run_scenario_bursty rate duration rs fuel (elapsed + 2 / rate) (req_id + 1) (draw + 1)
    else []

end MultiModel

/-- The launches performed by one bursty-loop iteration, in the order the
tasks are created. -/
def burstyIterLaunches : BurstyIter → List BLaunch
  | .burst _ ls => ls
  | .background l => [l]

/-- All launches of a bursty run, in creation order (the order in which the
tasks are appended to `results`). -/
def burstyLaunches (its : List BurstyIter) : List BLaunch :=
  (its.map burstyIterLaunches).flatten

/-- How many iterations of a bursty run took the burst branch. -/
def burstEventCount (its : List BurstyIter) : Nat :=
  (its.filter fun it =>
    match it with
    | .burst _ _ => true
    | .background _ => false).length

/-- The elapsed times at which the burst branch fired. -/
def burstTimes (its : List BurstyIter) : List ℚ :=
  its.filterMap fun it =>
    match it with
    | .burst t _ => some t
    | .background _ => none

/-- Well-formedness of one bursty-loop iteration as the amended C2 states it:
a burst carries exactly `burst_size = 10` launches and fires only at an
elapsed time whose integer part is a positive multiple of 10 (in particular
never at t = 0). -/
def burstIterOk : BurstyIter → Prop
  | .burst t ls => ls.length = 10 ∧ 0 < ⌊t⌋ ∧ ⌊t⌋ % 10 = 0
  | .background _ => True

/-- The per-model row group of the quick summary
`df.groupby("model")["total_latency_ms"].describe()` computed by
`run_single_test` (`multi_model/benchmark.py` lines 215-219): every collected
record of the model belongs to the group; there is no restriction on
`status`. -/
def modelGroup (records : List MeasurementRecord) (model : String) : List MeasurementRecord :=
  records.filter fun r => r.model = model

/-- The `count` column of the quick summary for one model. -/
def summaryCount (records : List MeasurementRecord) (model : String) : Nat :=
  (modelGroup records model).length

/-- The `mean` column of the quick summary for one model. -/
def summaryMean (records : List MeasurementRecord) (model : String) : ℚ :=
  ((modelGroup records model).map (·.total_latency_ms)).sum / (summaryCount records model : ℚ)

/-- Spec-side comparator (§4.4): the row group of the same summary
"restricted to status = SUCCESS records", as claim C1 states it. -/
def successGroup (records : List MeasurementRecord) (model : String) : List MeasurementRecord :=
  records.filter fun r => r.model = model ∧ r.status = .SUCCESS

/-- Spec-side comparator: the `count` statistic over the SUCCESS subset. -/
def summaryCountSuccess (records : List MeasurementRecord) (model : String) : Nat :=
  (successGroup records model).length

/-- Spec-side comparator: the `mean` statistic over the SUCCESS subset. -/
def summaryMeanSuccess (records : List MeasurementRecord) (model : String) : ℚ :=
  ((successGroup records model).map (·.total_latency_ms)).sum /
    (summaryCountSuccess records model : ℚ)

/-- One line of the single-model executor's stream: whether the decoded line
passes `line.startswith("data: ") and line != "data: [DONE]"`, and the
`time.perf_counter()` value at which it is processed. -/
structure SMFrame where
  isData : Bool
  time : ℚ
deriving DecidableEq, Repr

/-- Outcome of one exchange as observed by the single-model `send_request`. -/
inductive SMExchange where
  | connectError
  | response (status : Nat) (frames : List SMFrame) (midStreamError : Bool)
deriving DecidableEq, Repr

/-- The result dictionary of `single_model/vllm_benchmark_request.py`
`send_request`. -/
structure SMRecord where
  phase : String
  input_len : Nat
  concurrency : Nat
  ttft_ms : ℚ
  itl_ms : ℚ
deriving DecidableEq, Repr

namespace SingleModel

/-- The body-streaming loop of `single_model/vllm_benchmark_request.py`
`send_request` (lines 53-61): mutable state `first_token_time` (sentinel 0)
and `token_times` (the arrival times of every data line after the first). -/
def smLoop : List SMFrame → ℚ → List ℚ → ℚ × List ℚ
  | [], first_token_time, token_times => (first_token_time, token_times)
  | f :: rest, first_token_time, token_times =>
    if f.isData then
      if first_token_time = 0 then smLoop rest f.time token_times
      else smLoop rest first_token_time (token_times ++ [f.time])
    else smLoop rest first_token_time token_times

/-- `send_request` of `single_model/vllm_benchmark_request.py` (lines 31-82).
A non-200 status returns `None` (line 51), as does any exception (line 82);
otherwise `ttft = (first_token_time - start_time) * 1000` and, when at least
one token followed the first,
`avg_itl = ((token_times[-1] - first_token_time) / len(token_times)) * 1000`.
The prompt only affects the request payload, not the measurement, and is
omitted. -/
def send_request (test_phase : String) (input_len concurrency_level : Nat)
    (start_time : ℚ) (ex : SMExchange) : Option SMRecord :=
  match ex with
  | .connectError => none
  | .response code frames midStreamError =>
    if code ≠ 200 then none
    else if midStreamError then none
    else
      let s := smLoop frames 0 []
      let ttft := (s.1 - start_time) * 1000
      let avg_itl : ℚ :=
        if 0 < s.2.length then ((s.2.getLastD 0 - s.1) / (s.2.length : ℚ)) * 1000 else 0
      some ⟨test_phase, input_len, concurrency_level, ttft, avg_itl⟩

/-- The collection step of `run_phase_1_ttft` (line 104-105) and
`run_phase_2_itl` (lines 130-132): `if res: results.append(res)` keeps
exactly the non-`None` results. -/
def collectPhaseResults (rs : List (Option SMRecord)) : List SMRecord :=
  rs.filterMap id

end SingleModel

/-- The collection step of `run_single_test` (`multi_model/benchmark.py`
lines 206-208): one response is appended for every launched task, so the
collected responses are the image of `send_request` over all launches
(completion order may differ from launch order; the claims settled here do
not depend on the order).  A launch is described by its arguments:
request id, model, scenario, start time and the exchange the network
produces. -/
def run_single_test_responses
    (launches : List ((String × Nat) × String × String × ℚ × Exchange)) :
    List MeasurementRecord :=
  launches.map fun q => MultiModel.send_request q.1 q.2.1 q.2.2.1 q.2.2.2.1 q.2.2.2.2

/-- Clock monotonicity of one exchange as observed by the multi-model
executor: every frame is processed no earlier than the request's start time,
and frame processing times are nondecreasing in arrival order. -/
def MonotoneExchange (start_time : ℚ) : Exchange → Prop
  | .connectError => True
  | .response _ frames _ =>
      (∀ f ∈ frames, start_time ≤ f.time) ∧
      frames.Pairwise fun a b => a.time ≤ b.time

theorem tokenTimes_nil : tokenTimes [] = [] := rfl

theorem tokenTimes_cons (f : Frame) (rest : List Frame) :
    tokenTimes (f :: rest) =
      if f.nonEmpty then f.time :: tokenTimes rest else tokenTimes rest := by
  by_cases hf : f.nonEmpty <;> simp [tokenTimes, hf]

theorem streamLoop_seeded (start_time : ℚ) (frames : List Frame)
    (f0 l0 : ℚ) (c0 : Nat) (tt0 : ℚ) :
    streamLoop start_time frames ⟨some f0, some l0, c0, tt0⟩ =
      ⟨some f0, some ((tokenTimes frames).getLast?.getD l0),
        c0 + (tokenTimes frames).length, tt0⟩ := by
  induction frames generalizing l0 c0 with
  | nil => simp [streamLoop, tokenTimes]
  | cons f rest ih =>
    by_cases hf : f.nonEmpty
    · simp only [streamLoop, hf, if_true, tokenTimes_cons]
      rw [ih]
      simp [List.getLast?_cons]
      omega
    · simp only [streamLoop, hf, tokenTimes_cons]
      simpa [hf] using ih l0 c0

/-- Characterization of the streaming loop started from the initial state:
the final `first_token_time`, `last_token_time`, `token_count` and `ttft` are
determined by the list of non-empty frame times. -/
theorem streamLoop_run (start_time : ℚ) (frames : List Frame) :
    streamLoop start_time frames ⟨none, none, 0, 0⟩ =
      ⟨(tokenTimes frames).head?, (tokenTimes frames).getLast?,
        (tokenTimes frames).length, ttftOf start_time (tokenTimes frames)⟩ := by
  induction frames with
  | nil => simp [streamLoop, tokenTimes, ttftOf]
  | cons f rest ih =>
    by_cases hf : f.nonEmpty
    · simp only [streamLoop, hf, if_true, tokenTimes_cons]
      rw [streamLoop_seeded]
      simp [List.getLast?_cons, ttftOf, Nat.add_comm]
    · simp only [streamLoop, hf, tokenTimes_cons]
      rw [ih]
      simp

/-- C9: for every request whose endpoint responds HTTP 200 but whose stream
body delivers zero non-empty frames, the resulting record has
status = EMPTY_RESPONSE (a constructor distinct from FAIL) and ttft_ms = 0. -/
theorem c9_empty_stream (request_id : String × Nat) (model_name scenario_name : String)
    (start_time : ℚ) (frames : List Frame)
    (h : tokenTimes frames = []) :
    (MultiModel.send_request request_id model_name scenario_name start_time
        (.response 200 frames false)).status = Status.EMPTY_RESPONSE ∧
    (MultiModel.send_request request_id model_name scenario_name start_time
        (.response 200 frames false)).ttft_ms = 0 := by
  simp [MultiModel.send_request, streamLoop_run, h, ttftOf]

theorem c9_empty_stream_witness :
    tokenTimes [Frame.mk false 3] = [] ∧
    (MultiModel.send_request ("RR", 0) "Chatbot-A-large" "round_robin" 0
        (.response 200 [Frame.mk false 3] false)).status = Status.EMPTY_RESPONSE ∧
    (MultiModel.send_request ("RR", 0) "Chatbot-A-large" "round_robin" 0
        (.response 200 [Frame.mk false 3] false)).ttft_ms = 0 :=
  ⟨rfl, c9_empty_stream ("RR", 0) "Chatbot-A-large" "round_robin" 0 [Frame.mk false 3] rfl⟩

/-- C3 counterexample: a transport-level exception raised mid-stream, after
one frame was received at time 5 (start time 0), yields a record with
status = FAIL whose ttft_ms is 5000, not 0 — refuting the claim that all
latency fields are zero for every transport-level exception. -/
theorem c3_counterexample :
    (MultiModel.send_request ("RR", 0) "Chatbot-A-large" "round_robin" 0
        (.response 200 [Frame.mk true 5] true)).status = Status.FAIL ∧
    ¬ (MultiModel.send_request ("RR", 0) "Chatbot-A-large" "round_robin" 0
        (.response 200 [Frame.mk true 5] true)).ttft_ms = 0 :=
  of_decide_eq_true (by with_unfolding_all rfl)

/-- C3 (amended): a transport-level exception is caught locally (the embedded
executor is a total function: every exchange returns a record) and yields
status = FAIL with total_latency_ms = 0 and avg_itl_ms = 0; ttft_ms is 0 when
the exception precedes the first non-empty frame (in particular for
connection-level failures) but otherwise keeps the TTFT computed from the
frames received before the exception. -/
theorem c3_amended_transport_error (request_id : String × Nat)
    (model_name scenario_name : String) (start_time : ℚ) (frames : List Frame) :
    ((MultiModel.send_request request_id model_name scenario_name start_time
        .connectError).status = Status.FAIL ∧
      (MultiModel.send_request request_id model_name scenario_name start_time
        .connectError).ttft_ms = 0 ∧
      (MultiModel.send_request request_id model_name scenario_name start_time
        .connectError).total_latency_ms = 0 ∧
      (MultiModel.send_request request_id model_name scenario_name start_time
        .connectError).avg_itl_ms = 0) ∧
    ((MultiModel.send_request request_id model_name scenario_name start_time
        (.response 200 frames true)).status = Status.FAIL ∧
      (MultiModel.send_request request_id model_name scenario_name start_time
        (.response 200 frames true)).ttft_ms = ttftOf start_time (tokenTimes frames) ∧
      (MultiModel.send_request request_id model_name scenario_name start_time
        (.response 200 frames true)).total_latency_ms = 0 ∧
      (MultiModel.send_request request_id model_name scenario_name start_time
        (.response 200 frames true)).avg_itl_ms = 0) := by
  refine ⟨⟨rfl, rfl, rfl, rfl⟩, ?_⟩
  simp [MultiModel.send_request, streamLoop_run]

/-- C4 counterexample: in the single-model executor an HTTP 500 response
makes `send_request` return `None` (line 51), and the phase runners'
collection `if res: results.append(res)` therefore omits the request from
the collected results — the record is missing for that executor,
contradicting the claim's "neither missing ... nor raising" for the cited
single-model source. -/
theorem c4_counterexample :
    SingleModel.send_request "TTFT" 128 1 0 (.response 500 [] false) = none ∧
    SingleModel.collectPhaseResults
      [SingleModel.send_request "TTFT" 128 1 0 (.response 500 [] false)] = [] :=
  ⟨rfl, rfl⟩

/-- C4 (amended): for every response whose HTTP status is not 200 (hence for
every non-2xx status): the multi-model executor yields a record with
status = FAIL and all latency fields zero without raising, and its collector
keeps one record per launched request; the single-model executor instead
returns `None`, so the request is dropped from that executor's collected
results (still without raising). -/
theorem c4_amended_non_2xx (request_id : String × Nat)
    (model_name scenario_name : String) (start_time : ℚ) (code : Nat)
    (frames : List Frame) (mid : Bool) (sframes : List SMFrame) (smid : Bool)
    (test_phase : String) (input_len concurrency_level : Nat)
    (launches : List ((String × Nat) × String × String × ℚ × Exchange))
    (h : code ≠ 200) :
    ((MultiModel.send_request request_id model_name scenario_name start_time
        (.response code frames mid)).status = Status.FAIL ∧
      (MultiModel.send_request request_id model_name scenario_name start_time
        (.response code frames mid)).ttft_ms = 0 ∧
      (MultiModel.send_request request_id model_name scenario_name start_time
        (.response code frames mid)).total_latency_ms = 0 ∧
      (MultiModel.send_request request_id model_name scenario_name start_time
        (.response code frames mid)).avg_itl_ms = 0) ∧
    (run_single_test_responses launches).length = launches.length ∧
    SingleModel.send_request test_phase input_len concurrency_level start_time
      (.response code sframes smid) = none := by
  refine ⟨?_, ?_, ?_⟩
  · simp [MultiModel.send_request, h]
  · simp [run_single_test_responses]
  · simp [SingleModel.send_request, h]

theorem c4_amended_non_2xx_witness :
    (500 : Nat) ≠ 200 ∧
    (MultiModel.send_request ("RR", 0) "Chatbot-A-large" "round_robin" 0
        (.response 500 [] false)).status = Status.FAIL ∧
    SingleModel.send_request "TTFT" 128 1 0 (.response 500 [] false) = none := by
  have h := c4_amended_non_2xx ("RR", 0) "Chatbot-A-large" "round_robin" 0 500
    [] false [] false "TTFT" 128 1 [] (by decide)
  exact ⟨by decide, h.1.1, h.2.2⟩

theorem run_scenario_round_robin_getElem (models : List String) (rate duration : ℚ) :
    ∀ (fuel : Nat) (elapsed : ℚ) (req_id n : Nat),
      n < (MultiModel.run_scenario_round_robin models rate duration fuel elapsed req_id).length →
      (MultiModel.run_scenario_round_robin models rate duration fuel elapsed req_id)[n]? =
        some ⟨req_id + n, models.getD ((req_id + n) % models.length) "",
              elapsed + (n : ℚ) * (1 / rate)⟩ := by
  intro fuel
  induction fuel with
  | zero =>
    intro e r n h
    simp [MultiModel.run_scenario_round_robin] at h
  | succ fuel ih =>
    intro e r n h
    rw [MultiModel.run_scenario_round_robin] at h ⊢
    by_cases hd : e < duration
    · rw [if_pos hd] at h ⊢
      cases n with
      | zero => simp
      | succ n =>
        have hlen : n < (MultiModel.run_scenario_round_robin models rate duration fuel
            (e + 1 / rate) (r + 1)).length := by
          simpa using h
        have := ih (e + 1 / rate) (r + 1) n hlen
        rw [List.getElem?_cons_succ, this]
        have hnum : r + 1 + n = r + (n + 1) := by omega
        simp only [Option.some.injEq, RRLaunch.mk.injEq]
        refine ⟨hnum, by rw [hnum], by push_cast; ring⟩
    · rw [if_neg hd] at h
      simp at h

/-- C7: the n-th request (0-indexed) launched by the round-robin scheduler
targets models[n mod len(models)], and its launch time under the idealized
clock is n · (1/targetRate) — i.e. consecutive launches are separated by the
constant inter-arrival delay 1/targetRate.  The embedding of this scheduler
takes no pseudo-random source at all, so the sequence is fully deterministic
and independent of any random seed. -/
theorem c7_round_robin_nth (models : List String) (rate duration : ℚ) (fuel n : Nat)
    (h : n < (MultiModel.run_scenario_round_robin models rate duration fuel 0 0).length) :
    (MultiModel.run_scenario_round_robin models rate duration fuel 0 0)[n]? =
      some ⟨n, models.getD (n % models.length) "", (n : ℚ) * (1 / rate)⟩ := by
  have := run_scenario_round_robin_getElem models rate duration fuel 0 0 n h
  simpa using this

theorem c7_round_robin_nth_witness :
    (MultiModel.run_scenario_round_robin MODELS 2 5 20 0 0)[4]? =
      some ⟨4, MODELS.getD (4 % MODELS.length) "", (4 : ℚ) * (1 / 2)⟩ :=
  c7_round_robin_nth MODELS 2 5 20 4 (of_decide_eq_true (by with_unfolding_all rfl))

theorem burstyLaunches_nil : burstyLaunches [] = [] := rfl

theorem burstyLaunches_cons (it : BurstyIter) (rest : List BurstyIter) :
    burstyLaunches (it :: rest) = burstyIterLaunches it ++ burstyLaunches rest := by
  simp [burstyLaunches]

theorem run_scenario_round_robin_nums (models : List String) (rate duration : ℚ) :
    ∀ (fuel : Nat) (elapsed : ℚ) (req_id : Nat),
      ∃ m, (MultiModel.run_scenario_round_robin models rate duration fuel elapsed req_id).map
             RRLaunch.num = List.range' req_id m := by
  intro fuel
  induction fuel with
  | zero => exact fun e r => ⟨0, by simp [MultiModel.run_scenario_round_robin]⟩
  | succ fuel ih =>
    intro e r
    rw [MultiModel.run_scenario_round_robin]
    by_cases hd : e < duration
    · obtain ⟨m, hm⟩ := ih (e + 1 / rate) (r + 1)
      refine ⟨m + 1, ?_⟩
      rw [if_pos hd]
      simp only [List.map_cons, hm]
      rfl
    · exact ⟨0, by simp [hd]⟩

theorem run_scenario_bursty_nums (rate duration : ℚ) (rs : Nat → Nat) :
    ∀ (fuel : Nat) (elapsed : ℚ) (req_id draw : Nat),
      ∃ m, (burstyLaunches
              (MultiModel.run_scenario_bursty rate duration rs fuel elapsed req_id draw)).map
             BLaunch.num = List.range' req_id m := by
  intro fuel
  induction fuel with
  | zero => exact fun e r d => ⟨0, by simp [MultiModel.run_scenario_bursty, burstyLaunches]⟩
  | succ fuel ih =>
    intro e r d
    rw [MultiModel.run_scenario_bursty]
    by_cases hd : e < duration
    · rw [if_pos hd]
      by_cases hb : ⌊e⌋ % 10 = 0 ∧ 0 < ⌊e⌋
      · rw [if_pos hb]
        obtain ⟨m, hm⟩ := ih (e + 1) (r + 10) (d + 10)
        refine ⟨10 + m, ?_⟩
        rw [burstyLaunches_cons, List.map_append, hm]
        have hburst : ((List.range 10).map fun j =>
            BLaunch.mk "BURST" (r + j) (MODELS.getD (rs (d + j) % MODELS.length) "") e).map
              BLaunch.num = List.range' r 10 := by
          rw [List.map_map, List.range'_eq_map_range]
          simp [Function.comp]
        have happ := List.range'_append r 10 m 1
        simp only [one_mul, Nat.add_comm 10 m] at happ ⊢
        rw [show burstyIterLaunches (BurstyIter.burst e ((List.range 10).map fun j =>
            BLaunch.mk "BURST" (r + j) (MODELS.getD (rs (d + j) % MODELS.length) "") e)) =
            (List.range 10).map fun j =>
              BLaunch.mk "BURST" (r + j) (MODELS.getD (rs (d + j) % MODELS.length) "") e from rfl]
        rw [hburst]
        exact happ
      · rw [if_neg hb]
        obtain ⟨m, hm⟩ := ih (e + 2 / rate) (r + 1) (d + 1)
        refine ⟨m + 1, ?_⟩
        rw [burstyLaunches_cons, List.map_append, hm]
        simp [burstyIterLaunches, List.range']
    · rw [if_neg hd]
      exact ⟨0, by simp [burstyLaunches]⟩

/-- C10: within one scenario run every launched request receives a distinct
request id.  Both the burst branch and the background branch of the bursty
loop draw from the one shared `req_id` counter, incremented once per launch,
so the (tag, counter) ids of all launches of a bursty run are pairwise
distinct; the round-robin loop's ids (all tagged "RR") are likewise pairwise
distinct. -/
theorem c10_request_ids_distinct (rate duration : ℚ) (rs : Nat → Nat)
    (fuel : Nat) (elapsed : ℚ) (req_id draw : Nat)
    (models : List String) (rate2 duration2 : ℚ) (fuel2 : Nat) (elapsed2 : ℚ)
    (req_id2 : Nat) :
    ((burstyLaunches
        (MultiModel.run_scenario_bursty rate duration rs fuel elapsed req_id draw)).map
      (fun l => (l.tag, l.num))).Nodup ∧
    ((MultiModel.run_scenario_round_robin models rate2 duration2 fuel2 elapsed2 req_id2).map
      (fun l => ("RR", l.num))).Nodup := by
  constructor
  · obtain ⟨m, hm⟩ := run_scenario_bursty_nums rate duration rs fuel elapsed req_id draw
    refine List.Nodup.of_map Prod.snd ?_
    rw [List.map_map]
    have hc : (Prod.snd ∘ fun l : BLaunch => (l.tag, l.num)) = BLaunch.num := rfl
    rw [hc, hm]
    exact List.nodup_range' _ _
  · obtain ⟨m, hm⟩ := run_scenario_round_robin_nums models rate2 duration2 fuel2 elapsed2 req_id2
    refine List.Nodup.of_map Prod.snd ?_
    rw [List.map_map]
    have hc : (Prod.snd ∘ fun l : RRLaunch => ("RR", l.num)) = RRLaunch.num := rfl
    rw [hc, hm]
    exact List.nodup_range' _ _

/-- C2 counterexample: at the source's own base rate (`TARGET_RPS = 1`, so
the background branch sleeps `1.0 / (TARGET_RPS / 2)` = 2 seconds) and with
exact sleep timing, a 30-second bursty run polls elapsed time at
0, 2, 4, 6, 8, 10, 11, 13, 15, ..., 29 seconds: the modulo test
`int(elapsed) % 10 == 0 and int(elapsed) > 0` fires only at t = 10, because
no poll lands inside the one-second window [20, 21).  Exactly 1 burst event
fires over the 30-second window, not the 3 the claim asserts. -/
theorem c2_counterexample :
    burstTimes (MultiModel.run_scenario_bursty 1 30 (fun _ => 0) 40 0 0 0) = [10] ∧
    burstEventCount (MultiModel.run_scenario_bursty 1 30 (fun _ => 0) 40 0 0 0) = 1 ∧
    ¬ burstEventCount (MultiModel.run_scenario_bursty 1 30 (fun _ => 0) 40 0 0 0) = 3 :=
  of_decide_eq_true (by with_unfolding_all rfl)

/-- C2 (amended): every iteration of the bursty loop that takes the burst
branch injects exactly burstSize = 10 requests and fires only at an elapsed
time whose integer part is a positive multiple of 10 — in particular never at
t = 0; but because the code re-tests the modulo condition instead of tracking
the last fired boundary, a 10-second boundary fires only when some poll of
the scheduling loop lands within one second after it, and at the source's
base rate targetRate = 1 with exact sleep timing exactly 1 burst event
(at t = 10) fires over a 30-second window — not one event per boundary. -/
theorem c2_amended_burst_behavior :
    (∀ (rate duration : ℚ) (rs : Nat → Nat) (fuel : Nat) (elapsed : ℚ)
        (req_id draw : Nat),
      (MultiModel.run_scenario_bursty rate duration rs fuel elapsed req_id draw).Forall
        burstIterOk) ∧
    burstTimes (MultiModel.run_scenario_bursty 1 30 (fun _ => 0) 40 0 0 0) = [10] ∧
    burstEventCount (MultiModel.run_scenario_bursty 1 30 (fun _ => 0) 40 0 0 0) = 1 := by
  refine ⟨?_, of_decide_eq_true (by with_unfolding_all rfl)⟩
  intro rate duration rs fuel
  induction fuel with
  | zero =>
    intro e r d
    simp [MultiModel.run_scenario_bursty]
  | succ fuel ih =>
    intro e r d
    rw [MultiModel.run_scenario_bursty]
    by_cases hd : e < duration
    · rw [if_pos hd]
      by_cases hb : ⌊e⌋ % 10 = 0 ∧ 0 < ⌊e⌋
      · rw [if_pos hb]
        exact (List.forall_cons _ _ _).mpr ⟨⟨by simp, hb.2, hb.1⟩, ih (e + 1) (r + 10) (d + 10)⟩
      · rw [if_neg hb]
        exact (List.forall_cons _ _ _).mpr ⟨trivial, ih (e + 2 / rate) (r + 1) (d + 1)⟩
    · rw [if_neg hd]
      simp

/-- C5 counterexample: instantiating both modelled draw streams with the
identity stream (the two generators are seeded with the same seed, so under
any fixed modelling their draw streams coincide), the code's (model, delay)
sequence differs from the one a single shared seeded generator would give:
the code consumes draw k of `random.Random(seed)` for the k-th model and,
independently, draw k of `np.random.default_rng(seed)` for the k-th delay,
whereas a single shared generator would hand the two draws of step k
consecutive positions of one stream. -/
theorem c5_counterexample :
    ¬ MultiModel.run_scenario_zipfian (fun d => MODELS.getD (d % MODELS.length) "")
        (fun d => (d : ℚ)) (fun i => i) (fun i => i) 2 0 =
      MultiModel.zipfianSingleGen (fun d => MODELS.getD (d % MODELS.length) "")
        (fun d => (d : ℚ)) (fun i => i) 2 0 :=
  of_decide_eq_true (by with_unfolding_all rfl)

/-- C5 (amended): the model choices and the delays of the Zipfian scheduler
come from two separate generators, `random.Random(seed)` and
`np.random.default_rng(seed)`, each deterministically seeded with the run's
seed: the emitted (model, delay) sequence is a function of the two draw
streams alone — so two runs with the same seed produce the identical sequence
end-to-end — and moreover the model subsequence depends only on the
`random.Random` stream while the delay subsequence depends only on the numpy
stream. -/
theorem c5_amended_two_generators
    (modelOfDraw : Nat → String) (delayOfDraw : Nat → ℚ)
    (r1 n1 r2 n2 : Nat → Nat) (fuel k : Nat) :
    ((∀ i, r1 i = r2 i) → (∀ i, n1 i = n2 i) →
       MultiModel.run_scenario_zipfian modelOfDraw delayOfDraw r1 n1 fuel k =
       MultiModel.run_scenario_zipfian modelOfDraw delayOfDraw r2 n2 fuel k) ∧
    ((∀ i, r1 i = r2 i) →
       (MultiModel.run_scenario_zipfian modelOfDraw delayOfDraw r1 n1 fuel k).map
           Prod.fst =
       (MultiModel.run_scenario_zipfian modelOfDraw delayOfDraw r2 n2 fuel k).map
           Prod.fst) ∧
    ((∀ i, n1 i = n2 i) →
       (MultiModel.run_scenario_zipfian modelOfDraw delayOfDraw r1 n1 fuel k).map
           Prod.snd =
       (MultiModel.run_scenario_zipfian modelOfDraw delayOfDraw r2 n2 fuel k).map
           Prod.snd) := by
  induction fuel generalizing k with
  | zero => exact ⟨fun _ _ => rfl, fun _ => rfl, fun _ => rfl⟩
  | succ fuel ih =>
    refine ⟨fun hr hn => ?_, fun hr => ?_, fun hn => ?_⟩
    · rw [MultiModel.run_scenario_zipfian, MultiModel.run_scenario_zipfian,
        hr k, hn k, (ih (k + 1)).1 hr hn]
    · rw [MultiModel.run_scenario_zipfian, MultiModel.run_scenario_zipfian,
        List.map_cons, List.map_cons, hr k, (ih (k + 1)).2.1 hr]
    · rw [MultiModel.run_scenario_zipfian, MultiModel.run_scenario_zipfian,
        List.map_cons, List.map_cons, hn k, (ih (k + 1)).2.2 hn]

theorem c5_amended_two_generators_witness :
    (MultiModel.run_scenario_zipfian (fun d => MODELS.getD (d % MODELS.length) "")
        (fun d => (d : ℚ)) (fun i => i) (fun _ => 0) 3 0).map Prod.fst =
    (MultiModel.run_scenario_zipfian (fun d => MODELS.getD (d % MODELS.length) "")
        (fun d => (d : ℚ)) (fun i => i) (fun i => i + 7) 3 0).map Prod.fst :=
  (c5_amended_two_generators (fun d => MODELS.getD (d % MODELS.length) "")
      (fun d => (d : ℚ)) (fun i => i) (fun _ => 0) (fun i => i) (fun i => i + 7) 3 0).2.1
    (fun _ => rfl)

theorem tokenTimes_map_true (xs : List ℚ) :
    tokenTimes (xs.map fun x => Frame.mk true x) = xs := by
  induction xs with
  | nil => rfl
  | cons x rest ih => simp [tokenTimes_cons, ih]

/-- The `avg_itl` computation at the tail of the multi-model `send_request`
(lines 78-80), stated over the final record's own fields. -/
theorem send_request_avg_itl (request_id : String × Nat)
    (model_name scenario_name : String) (start_time : ℚ) (ex : Exchange) :
    (MultiModel.send_request request_id model_name scenario_name start_time ex).avg_itl_ms =
      if 1 < (MultiModel.send_request request_id model_name scenario_name start_time
            ex).token_count ∧
          (MultiModel.send_request request_id model_name scenario_name start_time
            ex).status = Status.SUCCESS then
        ((MultiModel.send_request request_id model_name scenario_name start_time
            ex).total_latency_ms -
          (MultiModel.send_request request_id model_name scenario_name start_time
            ex).ttft_ms) /
          (((MultiModel.send_request request_id model_name scenario_name start_time
            ex).token_count : ℚ) - 1)
      else 0 := rfl

/-- Field values of the multi-model record for a 200 exchange with no
mid-stream error whose non-empty frame times are `t :: ts`. -/
theorem send_request_success_case (request_id : String × Nat)
    (model_name scenario_name : String) (start_time t : ℚ) (ts : List ℚ)
    (frames : List Frame) (htok : tokenTimes frames = t :: ts) :
    (MultiModel.send_request request_id model_name scenario_name start_time
        (.response 200 frames false)).status = Status.SUCCESS ∧
    (MultiModel.send_request request_id model_name scenario_name start_time
        (.response 200 frames false)).ttft_ms = (t - start_time) * 1000 ∧
    (MultiModel.send_request request_id model_name scenario_name start_time
        (.response 200 frames false)).total_latency_ms =
      (ts.getLast?.getD t - start_time) * 1000 ∧
    (MultiModel.send_request request_id model_name scenario_name start_time
        (.response 200 frames false)).token_count = ts.length + 1 := by
  refine ⟨?_, ?_, ?_, ?_⟩ <;>
    simp [MultiModel.send_request, streamLoop_run, htok, List.getLast?_cons, ttftOf]

theorem smLoop_seeded (ftt : ℚ) (hftt : ¬ ftt = 0) :
    ∀ (ts acc : List ℚ),
      SingleModel.smLoop (ts.map fun x => SMFrame.mk true x) ftt acc = (ftt, acc ++ ts) := by
  intro ts
  induction ts with
  | nil => intro acc; simp [SingleModel.smLoop]
  | cons s rest ih =>
    intro acc
    simp only [List.map_cons, SingleModel.smLoop, if_true]
    rw [if_neg hftt, ih (acc ++ [s])]
    simp

/-- The single-model streaming loop on a stream of data lines arriving at
times `t :: ts` with `t ≠ 0` (the sentinel value of `first_token_time`)
finishes with `first_token_time = t` and `token_times = ts`. -/
theorem smLoop_data_run (t : ℚ) (ht : ¬ t = 0) (ts : List ℚ) :
    SingleModel.smLoop ((t :: ts).map fun x => SMFrame.mk true x) 0 [] = (t, ts) := by
  simp only [List.map_cons, SingleModel.smLoop, if_true, if_pos rfl]
  rw [smLoop_seeded t ht ts []]
  simp

/-- C6: for every record completed by the multi-model executor, if
unit_count > 1 and status = SUCCESS then
avg_itl_ms = (total_latency_ms − ttft_ms)/(unit_count − 1), and in every
other case avg_itl_ms = 0; and on a common stream of ≥ 2 token arrival times
`t :: ts` (with `t ≠ 0`, the single-model sentinel) the single-model
executor's ITL — (last token time − first token time) divided by the number
of tokens after the first — equals the multi-model value. -/
theorem c6_avg_itl_formula (request_id : String × Nat)
    (model_name scenario_name : String) (start_time : ℚ) (ex : Exchange)
    (start2 t : ℚ) (ts : List ℚ) (test_phase : String)
    (input_len concurrency_level : Nat)
    (ht : t ≠ 0) (hts : ts ≠ []) :
    ((1 < (MultiModel.send_request request_id model_name scenario_name start_time
          ex).token_count ∧
        (MultiModel.send_request request_id model_name scenario_name start_time
          ex).status = Status.SUCCESS →
        (MultiModel.send_request request_id model_name scenario_name start_time
          ex).avg_itl_ms =
          ((MultiModel.send_request request_id model_name scenario_name start_time
              ex).total_latency_ms -
            (MultiModel.send_request request_id model_name scenario_name start_time
              ex).ttft_ms) /
            (((MultiModel.send_request request_id model_name scenario_name start_time
              ex).token_count : ℚ) - 1)) ∧
      (¬ (1 < (MultiModel.send_request request_id model_name scenario_name start_time
            ex).token_count ∧
          (MultiModel.send_request request_id model_name scenario_name start_time
            ex).status = Status.SUCCESS) →
        (MultiModel.send_request request_id model_name scenario_name start_time
          ex).avg_itl_ms = 0)) ∧
    (SingleModel.send_request test_phase input_len concurrency_level start2
        (.response 200 ((t :: ts).map fun x => SMFrame.mk true x) false)).map
      SMRecord.itl_ms =
      some (MultiModel.send_request request_id model_name scenario_name start2
        (.response 200 ((t :: ts).map fun x => Frame.mk true x) false)).avg_itl_ms := by
  constructor
  · constructor
    · intro hc
      rw [send_request_avg_itl, if_pos hc]
    · intro hc
      rw [send_request_avg_itl, if_neg hc]
  · have htok : tokenTimes ((t :: ts).map fun x => Frame.mk true x) = t :: ts :=
      tokenTimes_map_true _
    obtain ⟨hst, htt, htl, hcnt⟩ :=
      send_request_success_case request_id model_name scenario_name start2 t ts _ htok
    have hlen : 0 < ts.length := List.length_pos.mpr hts
    obtain ⟨L, hL⟩ : ∃ v, ts.getLast? = some v := by
      cases ts with
      | nil => exact absurd rfl hts
      | cons a l => exact ⟨l.getLast?.getD a, List.getLast?_cons⟩
    have hitl := send_request_avg_itl request_id model_name scenario_name start2
      (.response 200 ((t :: ts).map fun x => Frame.mk true x) false)
    rw [hst, hcnt, htt, htl, hL] at hitl
    rw [if_pos ⟨by omega, rfl⟩] at hitl
    have hsm := smLoop_data_run t ht ts
    simp only [SingleModel.send_request, hsm, if_neg (by decide : ¬ (200 : Nat) ≠ 200),
      Bool.false_eq_true, if_false, Option.map_some]
    rw [if_pos hlen, hitl]
    rw [List.getLastD_eq_getLast?, hL]
    simp only [Option.getD_some, Option.some.injEq]
    push_cast
    ring_nf
    rfl

theorem c6_avg_itl_formula_witness :
    (1 : ℚ) ≠ 0 ∧ ([2] : List ℚ) ≠ [] ∧
    (SingleModel.send_request "ITL" 512 1 0
        (.response 200 (([1, 2] : List ℚ).map fun x => SMFrame.mk true x) false)).map
      SMRecord.itl_ms =
      some (MultiModel.send_request ("ZIPF", 0) "Chatbot-A-large" "zipfian" 0
        (.response 200 (([1, 2] : List ℚ).map fun x => Frame.mk true x) false)).avg_itl_ms := by
  refine ⟨by norm_num, by simp, ?_⟩
  exact (c6_avg_itl_formula ("ZIPF", 0) "Chatbot-A-large" "zipfian" 0
    (.response 200 [] false) 0 1 [2] "ITL" 512 1 (by norm_num) (by simp)).2

theorem head_le_getLastD_of_pairwise (t : ℚ) (ts : List ℚ)
    (hp : (t :: ts).Pairwise (· ≤ ·)) : t ≤ ts.getLast?.getD t := by
  cases hq : ts.getLast? with
  | none => simp
  | some v =>
    have hne : ts ≠ [] := by
      intro h
      subst h
      simp at hq
    have hv : v ∈ ts := by
      rw [List.getLast?_eq_getLast ts hne, Option.some.injEq] at hq
      subst hq
      exact List.getLast_mem hne
    simpa using (List.pairwise_cons.mp hp).1 v hv

/-- C8: for every record completed by the multi-model executor, assuming the
clock is monotone across the frame timestamps, ttft_ms is nonnegative, and if
status = SUCCESS then total_latency_ms is at least ttft_ms and unit_count is
at least 1. -/
theorem c8_record_invariants (request_id : String × Nat)
    (model_name scenario_name : String) (start_time : ℚ) (ex : Exchange)
    (hmono : MonotoneExchange start_time ex) :
    0 ≤ (MultiModel.send_request request_id model_name scenario_name start_time
        ex).ttft_ms ∧
    ((MultiModel.send_request request_id model_name scenario_name start_time
        ex).status = Status.SUCCESS →
      (MultiModel.send_request request_id model_name scenario_name start_time
          ex).ttft_ms ≤
        (MultiModel.send_request request_id model_name scenario_name start_time
          ex).total_latency_ms ∧
      1 ≤ (MultiModel.send_request request_id model_name scenario_name start_time
          ex).token_count) := by
  cases ex with
  | connectError =>
    exact ⟨le_refl 0, fun hs => by simp [MultiModel.send_request] at hs⟩
  | response code frames mid =>
    obtain ⟨hstart, hpairwise⟩ := hmono
    have hmem : ∀ x ∈ tokenTimes frames, start_time ≤ x := by
      intro x hx
      simp only [tokenTimes, List.mem_map, List.mem_filter] at hx
      obtain ⟨f, ⟨hf, _⟩, rfl⟩ := hx
      exact hstart f hf
    have hpw : (tokenTimes frames).Pairwise (· ≤ ·) :=
      (hpairwise.filter (fun f => f.nonEmpty)).map Frame.time fun a b hab => hab
    by_cases hcode : code = 200
    · subst hcode
      cases htok : tokenTimes frames with
      | nil =>
        have htt : (MultiModel.send_request request_id model_name scenario_name start_time
            (.response 200 frames mid)).ttft_ms = 0 := by
          cases mid <;> simp [MultiModel.send_request, streamLoop_run, htok, ttftOf]
        have hns : ¬ (MultiModel.send_request request_id model_name scenario_name start_time
            (.response 200 frames mid)).status = Status.SUCCESS := by
          cases mid <;> simp [MultiModel.send_request, streamLoop_run, htok]
        exact ⟨le_of_eq htt.symm, fun hs => absurd hs hns⟩
      | cons x ts =>
        have hx : start_time ≤ x := hmem x (htok ▸ List.mem_cons_self x ts)
        have hxl : x ≤ ts.getLast?.getD x := head_le_getLastD_of_pairwise x ts (htok ▸ hpw)
        cases mid with
        | true =>
          have htt : (MultiModel.send_request request_id model_name scenario_name start_time
              (.response 200 frames true)).ttft_ms = (x - start_time) * 1000 := by
            simp [MultiModel.send_request, streamLoop_run, htok, ttftOf]
          have hns : ¬ (MultiModel.send_request request_id model_name scenario_name
              start_time (.response 200 frames true)).status = Status.SUCCESS := by
            simp [MultiModel.send_request, streamLoop_run, htok]
          refine ⟨?_, fun hs => absurd hs hns⟩
          rw [htt]
          nlinarith
        | false =>
          obtain ⟨hst, htt, htl, hcnt⟩ :=
            send_request_success_case request_id model_name scenario_name start_time x ts
              frames htok
          refine ⟨?_, fun _ => ⟨?_, ?_⟩⟩
          · rw [htt]
            nlinarith
          · rw [htt, htl]
            nlinarith
          · rw [hcnt]
            omega
    · have htt : (MultiModel.send_request request_id model_name scenario_name start_time
          (.response code frames mid)).ttft_ms = 0 := by
        simp [MultiModel.send_request, hcode]
      have hns : ¬ (MultiModel.send_request request_id model_name scenario_name start_time
          (.response code frames mid)).status = Status.SUCCESS := by
        simp [MultiModel.send_request, hcode]
      exact ⟨le_of_eq htt.symm, fun hs => absurd hs hns⟩

theorem c8_record_invariants_witness :
    MonotoneExchange 0 (.response 200 [Frame.mk true 1, Frame.mk true 2] false) ∧
    0 ≤ (MultiModel.send_request ("RR", 2) "Chatbot-C" "round_robin" 0
        (.response 200 [Frame.mk true 1, Frame.mk true 2] false)).ttft_ms ∧
    ((MultiModel.send_request ("RR", 2) "Chatbot-C" "round_robin" 0
        (.response 200 [Frame.mk true 1, Frame.mk true 2] false)).status = Status.SUCCESS →
      (MultiModel.send_request ("RR", 2) "Chatbot-C" "round_robin" 0
          (.response 200 [Frame.mk true 1, Frame.mk true 2] false)).ttft_ms ≤
        (MultiModel.send_request ("RR", 2) "Chatbot-C" "round_robin" 0
          (.response 200 [Frame.mk true 1, Frame.mk true 2] false)).total_latency_ms ∧
      1 ≤ (MultiModel.send_request ("RR", 2) "Chatbot-C" "round_robin" 0
          (.response 200 [Frame.mk true 1, Frame.mk true 2] false)).token_count) := by
  have hmono : MonotoneExchange 0 (.response 200 [Frame.mk true 1, Frame.mk true 2] false) := by
    refine ⟨?_, ?_⟩
    · intro f hf
      fin_cases hf <;> norm_num
    · refine List.pairwise_cons.mpr ⟨?_, ?_⟩
      · intro f hf
        fin_cases hf
        norm_num
      · simp
  exact ⟨hmono, c8_record_invariants ("RR", 2) "Chatbot-C" "round_robin" 0
    (.response 200 [Frame.mk true 1, Frame.mk true 2] false) hmono⟩

/-- C1 counterexample: a collection holding one SUCCESS record of model
Chatbot-A-large with total_latency_ms = 100 and one FAIL record of the same
model (total_latency_ms = 0, from an HTTP 500 response).  The quick summary
computed by `run_single_test` reports count 2 and mean 50 for the model,
whereas the SUCCESS-restricted statistics the claim asserts are count 1 and
mean 100: the reported statistics do not equal the SUCCESS-only statistics,
because the summary folds failed records (with zeroed latency fields) into
the aggregation. -/
theorem c1_counterexample :
    ¬ summaryMean
        [MultiModel.send_request ("RR", 0) "Chatbot-A-large" "round_robin" 0
            (.response 200 [Frame.mk true (1 / 10)] false),
         MultiModel.send_request ("RR", 1) "Chatbot-A-large" "round_robin" 0
            (.response 500 [] false)] "Chatbot-A-large" =
      summaryMeanSuccess
        [MultiModel.send_request ("RR", 0) "Chatbot-A-large" "round_robin" 0
            (.response 200 [Frame.mk true (1 / 10)] false),
         MultiModel.send_request ("RR", 1) "Chatbot-A-large" "round_robin" 0
            (.response 500 [] false)] "Chatbot-A-large" ∧
    ¬ summaryCount
        [MultiModel.send_request ("RR", 0) "Chatbot-A-large" "round_robin" 0
            (.response 200 [Frame.mk true (1 / 10)] false),
         MultiModel.send_request ("RR", 1) "Chatbot-A-large" "round_robin" 0
            (.response 500 [] false)] "Chatbot-A-large" =
      summaryCountSuccess
        [MultiModel.send_request ("RR", 0) "Chatbot-A-large" "round_robin" 0
            (.response 200 [Frame.mk true (1 / 10)] false),
         MultiModel.send_request ("RR", 1) "Chatbot-A-large" "round_robin" 0
            (.response 500 [] false)] "Chatbot-A-large" :=
  of_decide_eq_true (by with_unfolding_all rfl)

/-- C1 (amended): the quick summary of `run_single_test` aggregates
total_latency_ms over every collected record of a model, with no restriction
on status; it coincides with the SUCCESS-restricted statistics exactly on
collections whose records of that model are all SUCCESS, and differs in
general (see the counterexample) because FAIL and EMPTY_RESPONSE records
enter the aggregation with their zeroed latency fields. -/
theorem c1_amended_summary_unfiltered (records : List MeasurementRecord)
    (model : String)
    (h : ∀ r ∈ modelGroup records model, r.status = Status.SUCCESS) :
    summaryCount records model = summaryCountSuccess records model ∧
    summaryMean records model = summaryMeanSuccess records model := by
  have hg : successGroup records model = modelGroup records model := by
    unfold successGroup modelGroup
    apply List.filter_congr
    intro r hr
    by_cases hm : r.model = model
    · have hs : r.status = Status.SUCCESS :=
        h r (by simp [modelGroup, List.mem_filter, hr, hm])
      simp [hm, hs]
    · simp [hm]
  refine ⟨?_, ?_⟩
  · simp [summaryCount, summaryCountSuccess, hg]
  · simp [summaryMean, summaryMeanSuccess, summaryCount, summaryCountSuccess, hg]

theorem c1_amended_summary_unfiltered_witness :
    (∀ r ∈ modelGroup
        [MultiModel.send_request ("RR", 0) "Chatbot-A-large" "round_robin" 0
            (.response 200 [Frame.mk true (1 / 10)] false)] "Chatbot-A-large",
      r.status = Status.SUCCESS) ∧
    summaryCount
        [MultiModel.send_request ("RR", 0) "Chatbot-A-large" "round_robin" 0
            (.response 200 [Frame.mk true (1 / 10)] false)] "Chatbot-A-large" =
      summaryCountSuccess
        [MultiModel.send_request ("RR", 0) "Chatbot-A-large" "round_robin" 0
            (.response 200 [Frame.mk true (1 / 10)] false)] "Chatbot-A-large" ∧
    summaryMean
        [MultiModel.send_request ("RR", 0) "Chatbot-A-large" "round_robin" 0
            (.response 200 [Frame.mk true (1 / 10)] false)] "Chatbot-A-large" =
      summaryMeanSuccess
        [MultiModel.send_request ("RR", 0) "Chatbot-A-large" "round_robin" 0
            (.response 200 [Frame.mk true (1 / 10)] false)] "Chatbot-A-large" := by
  have h : ∀ r ∈ modelGroup
      [MultiModel.send_request ("RR", 0) "Chatbot-A-large" "round_robin" 0
          (.response 200 [Frame.mk true (1 / 10)] false)] "Chatbot-A-large",
      r.status = Status.SUCCESS :=
    of_decide_eq_true (by with_unfolding_all rfl)
  exact ⟨h, c1_amended_summary_unfiltered _ "Chatbot-A-large" h⟩

end VllmLoadTest
